import Mathlib

/-!
Shallow embedding of the link-validation orchestration engine of the
`ui-inspector` Chrome extension (source files: `src/background/linkValidator.ts`,
`src/background/batchProcessor.ts`, `src/background/csvExporter.ts`).

Pure functions of the source become Lean functions; the stateful batch
processor becomes explicit state passing over a `Session` value, with the
nondeterministic parts of the environment (HTTP responses, cancellation
timing, concurrent completion order) supplied by explicit oracles.
-/

/-! ## Status classification (`linkValidator.ts`, `classifyStatus` / `getStatusText`) -/

/-- The closed enumeration of outcome categories (`StatusCategory` in
`src/shared/types.ts`). -/
inductive StatusCategory where
  | success
  | redirect
  | client_error
  | server_error
  | timeout
  | network_error
deriving DecidableEq, Repr

/-- `classifyStatus(status)` from `linkValidator.ts`.  HTTP statuses are JS
numbers; we model them as `Int` (an absent status is `none`).  The chain of
`if` tests mirrors the source's order exactly. -/
def classifyStatus : Option Int → StatusCategory
  | none => .network_error
  | some status =>
    if 200 ≤ status ∧ status < 300 then .success
    else if 300 ≤ status ∧ status < 400 then .redirect
    else if 400 ≤ status ∧ status < 500 then .client_error
    else if 500 ≤ status then .server_error
    else .network_error

/-- The fixed description table inside `getStatusText` (`statusDescriptions`),
with `none` for a missing key. -/
def statusDescription (status : Int) : Option String :=
  if status = 200 then some "OK"
  else if status = 201 then some "Created"
  else if status = 204 then some "No Content"
  else if status = 301 then some "Moved Permanently"
  else if status = 302 then some "Found"
  else if status = 303 then some "See Other"
  else if status = 304 then some "Not Modified"
  else if status = 307 then some "Temporary Redirect"
  else if status = 308 then some "Permanent Redirect"
  else if status = 400 then some "Bad Request"
  else if status = 401 then some "Unauthorized"
  else if status = 403 then some "Forbidden"
  else if status = 404 then some "Not Found"
  else if status = 405 then some "Method Not Allowed"
  else if status = 408 then some "Request Timeout"
  else if status = 410 then some "Gone"
  else if status = 429 then some "Too Many Requests"
  else if status = 500 then some "Internal Server Error"
  else if status = 502 then some "Bad Gateway"
  else if status = 503 then some "Service Unavailable"
  else if status = 504 then some "Gateway Timeout"
  else none

/-- `getStatusText(status, category)` from `linkValidator.ts`. -/
def getStatusText (status : Option Int) (category : StatusCategory) : String :=
  match status with
  | some s => (statusDescription s).getD ("Status " ++ toString s)
  | none =>
    match category with
    | .timeout => "Request Timeout"
    | .network_error => "Network Error"
    | _ => "Unknown Error"

/-! ## CSV cell escaping (`csvExporter.ts`, `escapeCSVValue`) -/

/-- Character-level model of the JS global replacement `replace(/"/g, '""')`:
every double-quote character is doubled, all other characters pass through. -/
def doubleQuotesList : List Char → List Char
  | [] => []
  | c :: cs => if c = '"' then '"' :: '"' :: doubleQuotesList cs else c :: doubleQuotesList cs

/-- `escapeCSVValue(value)` from `csvExporter.ts`, modelled on string cells
(`null`/`undefined` is `none`; numeric cells are stringified by the caller
before reaching the escaping logic).  `includes` with the single-character
needles `","`, `"\""`, `"\n"`, `"\r"` is character containment. -/
def escapeCSVValue : Option String → String
  | none => ""
  | some s =>
    let needsEscaping :=
      s.data.contains ',' || s.data.contains '"' || s.data.contains '\n' || s.data.contains '\r'
    if needsEscaping then
      String.mk ('"' :: (doubleQuotesList s.data ++ ['"']))
    else s

/-- Modelled from the spec's words for claim C9 (refinement target, not taken
from the source): a `null` cell is empty; a cell containing a comma, double
quote, carriage return or line feed is wrapped in double quotes with every
embedded double quote doubled; any other cell is emitted unchanged. -/
def csvCellSpec : Option String → String
  | none => ""
  | some s =>
    if ',' ∈ s.data ∨ '"' ∈ s.data ∨ '\r' ∈ s.data ∨ '\n' ∈ s.data then
      "\"" ++ String.mk (s.data.flatMap fun c => if c = '"' then ['"', '"'] else [c]) ++ "\""
    else s

/-! ## Single-link validator (`linkValidator.ts`, `validateLink`) -/

/-- A link descriptor (`LinkInfo` in `src/shared/types.ts`). -/
structure LinkInfo where
  url : String
  tagName : String
  text : Option String
  elementId : String
deriving DecidableEq, Repr

/-- One validation outcome (`ValidationResult` in `src/shared/types.ts`). -/
structure ValidationResult where
  url : String
  tagName : String
  text : Option String
  elementId : String
  checkedAt : String
  status : Option Int
  statusCategory : StatusCategory
  statusText : String
deriving DecidableEq, Repr

/-- A JS `Error` value as observed by `validateLink`'s failure handling. -/
structure JsError where
  name : String
  message : String
deriving DecidableEq, Repr

/-- The outcome of one `fetch` attempt: a response carrying a status code, or
a rejection carrying a JS error. -/
inductive FetchResult where
  | ok (status : Int)
  | err (e : JsError)
deriving DecidableEq, Repr

/-- Environment oracle for one `validateLink` call: the state of the external
cancellation signal at its two observation points, the outcome of the HEAD
attempt, the outcome of the GET attempt (consulted only when the code issues
a GET), and the wall-clock timestamp taken at entry. -/
structure ValidateEnv where
  abortedAtStart : Bool
  abortedAtEnd : Bool
  headResult : FetchResult
  getResult : FetchResult
  now : String
deriving DecidableEq, Repr

/-- Needle-at-head check for the substring search below. -/
def matchesAt : List Char → List Char → Bool
  | [], _ => true
  | _ :: _, [] => false
  | n :: ns, h :: hs => n == h && matchesAt ns hs

/-- `message.includes(needle)`: does `needle` occur contiguously in `hay`? -/
def containsSub (needle : List Char) : List Char → Bool
  | [] => needle.isEmpty
  | h :: hs => matchesAt needle (h :: hs) || containsSub needle hs

/-- The `isTimeout` test in `validateLink`'s error handling: the error's name
is `AbortError`/`TimeoutError` or its message contains `timeout`/`aborted`. -/
def isTimeoutError (e : JsError) : Bool :=
  e.name == "AbortError" || e.name == "TimeoutError" ||
    containsSub "timeout".data e.message.data || containsSub "aborted".data e.message.data

/-- `shouldFallbackToGet(_error, response)` from `linkValidator.ts`:
retry with GET when the HEAD response's status is 405 or, defensively, 400. -/
def shouldFallbackToGet (status : Int) : Bool :=
  status == 405 || status == 400

/-- Outcome fields shared by every return path (`baseResult` in the source). -/
def baseResult (link : LinkInfo) (now : String) (status : Option Int)
    (category : StatusCategory) (text : String) : ValidationResult :=
  { url := link.url, tagName := link.tagName, text := link.text,
    elementId := link.elementId, checkedAt := now,
    status := status, statusCategory := category, statusText := text }

/-- Classification of a received response (`if (response) { ... }` block). -/
def classifiedResult (link : LinkInfo) (now : String) (status : Int) : ValidationResult :=
  baseResult link now (some status) (classifyStatus (some status))
    (getStatusText (some status) (classifyStatus (some status)))

/-- The error branch at the end of `validateLink` (`if (lastError) { ... }`):
the external-cancellation check comes first, then the timeout test, then the
generic network error carrying the error's message (or the generic
description when the message is empty, via JS `||` falsiness). -/
def errorResult (link : LinkInfo) (now : String) (e : JsError) (abortedAtEnd : Bool) :
    ValidationResult :=
  if abortedAtEnd then
    baseResult link now none .network_error "Cancelled"
  else if isTimeoutError e then
    baseResult link now none .timeout (getStatusText none .timeout)
  else
    baseResult link now none .network_error
      (if e.message = "" then getStatusText none .network_error else e.message)

/-- `validateLink(link, config)` from `linkValidator.ts`, together with the
list of HTTP methods actually dispatched.  Control flow mirrored path by path:
* external signal already fired at entry → immediate `network_error`/"Cancelled",
  no request issued;
* HEAD yields a response: if its status triggers the GET fallback, a GET is
  issued with a fresh timeout/cancellation pairing; if that GET yields a
  response it is classified, and if the GET *rejects*, the JS `response`
  variable still holds the HEAD response, which is classified instead;
* HEAD rejects: one GET retry; a GET response is classified (`lastError`
  cleared), a GET rejection replaces `lastError` and falls through to the
  error branch. -/
def validateLinkM (link : LinkInfo) (env : ValidateEnv) : ValidationResult × List String :=
  if env.abortedAtStart then
    (baseResult link env.now none .network_error "Cancelled", [])
  else
    match env.headResult with
    | .ok s =>
      if shouldFallbackToGet s then
        match env.getResult with
        | .ok s2 => (classifiedResult link env.now s2, ["HEAD", "GET"])
        | .err _ => (classifiedResult link env.now s, ["HEAD", "GET"])
      else
        (classifiedResult link env.now s, ["HEAD"])
    | .err _ =>
      match env.getResult with
      | .ok s2 => (classifiedResult link env.now s2, ["HEAD", "GET"])
      | .err e2 => (errorResult link env.now e2 env.abortedAtEnd, ["HEAD", "GET"])

/-! ## Concurrency limiter (`batchProcessor.ts`, class `Semaphore`)

The class stores `permits : number` and `waiting : Array<resolver>`.  We model
the waiting queue as the list of suspended caller identifiers (`push` appends
at the tail, `shift` removes the head) and add a ghost field `holders`: the
number of callers that have acquired a permit and not yet released it (the
"outstanding" permits of the claim; the JS class does not store this number,
it is the instrumentation the invariant speaks about). -/

/-- Semaphore state: free `permits`, FIFO `waiting` queue of suspended caller
ids, and the ghost count `holders` of outstanding permits. -/
structure SemState where
  permits : Nat
  waiting : List Nat
  holders : Nat
deriving DecidableEq, Repr

/-- An event against the semaphore: some caller invokes `acquire()`, or a
permit-holding caller invokes `release()`. -/
inductive SemEvent where
  | acquire (caller : Nat)
  | release
deriving DecidableEq, Repr

/-- `new Semaphore(n)`: all permits free, nobody waiting, nobody holding. -/
def semInit (n : Nat) : SemState := ⟨n, [], 0⟩

/-- One step of the semaphore.  Returns the next state and the caller that
proceeds (acquires a permit) as a result of the event, if any:
* `acquire` with a free permit consumes it and proceeds immediately;
* `acquire` with no free permit appends the caller to the waiting queue;
* `release` with a waiter hands the permit directly to the queue head
  (`waiting.shift()` + `next()`) without touching the free count;
* `release` with no waiter returns the permit to the free pool. -/
def semStep (s : SemState) : SemEvent → SemState × Option Nat
  | .acquire c =>
    if 0 < s.permits then (⟨s.permits - 1, s.waiting, s.holders + 1⟩, some c)
    else (⟨s.permits, s.waiting ++ [c], s.holders⟩, none)
  | .release =>
    match s.waiting with
    | w :: ws => (⟨s.permits, ws, s.holders⟩, some w)
    | [] => (⟨s.permits + 1, [], s.holders - 1⟩, none)

/-- Run a sequence of events from a state. -/
def semRunFrom (s : SemState) : List SemEvent → SemState
  | [] => s
  | e :: es => semRunFrom (semStep s e).1 es

/-- Well-formedness of an event sequence from a state: `release` is only ever
invoked by a caller currently holding a permit (in the source, `release()` is
called exactly once, in a `finally`, by each task that acquired). -/
def semValidFrom (s : SemState) : List SemEvent → Bool
  | [] => true
  | e :: es =>
    (match e with
     | .release => decide (0 < s.holders)
     | .acquire _ => true) && semValidFrom (semStep s e).1 es

/-! ## Batch orchestrator (`batchProcessor.ts`, class `BatchProcessor`)

`start`/`resume`/`processLinks`/`processBatch` are modelled as functions over
an explicit `Session` value plus an oracle fixing the nondeterminism of one
run: the per-link interaction with the network/cancellation signal, the order
in which concurrent tasks of a chunk complete, and the value of the shared
abort signal at each batch boundary check.  `saveSession` calls are recorded
in a write log (persistence failures, caught and logged in the source, are
outside the model).  Nothing in `processLinks`/`processBatch` throws —
`validateLink` never rejects and cancellation only breaks the chunk loop —
so the `catch` blocks of `start`/`resume` (which would set status
`cancelled`) have no counterpart here. -/

/-- Session status (`'checking' | 'completed' | 'cancelled'`). -/
inductive SessionStatus where
  | checking
  | completed
  | cancelled
deriving DecidableEq, Repr

/-- The durable record of one run (`CheckSession` in `src/shared/types.ts`). -/
structure Session where
  id : String
  pageUrl : String
  links : List LinkInfo
  results : List ValidationResult
  status : SessionStatus
  completedCount : Nat
  startedAt : String
  completedAt : Option String
deriving DecidableEq, Repr

/-- `createSession(pageUrl, links)`; the generated id and the wall-clock
start time are parameters. -/
def createSession (sid pageUrl : String) (links : List LinkInfo) (t0 : String) : Session :=
  { id := sid, pageUrl := pageUrl, links := links, results := [],
    status := .checking, completedCount := 0, startedAt := t0, completedAt := none }

/-- What happens to one link's task inside `processBatch`: it can observe the
abort signal before `semaphore.acquire()` or right after acquiring (returning
without producing an outcome), or it runs `validateLink` under the
environment `env` and writes the outcome into its slot. -/
inductive LinkFate where
  | skippedBeforeAcquire
  | skippedAfterAcquire
  | completed (env : ValidateEnv)

/-- The value task `i` of a chunk writes into `results[i]`, if any. -/
def outcomeAt (batch : List LinkInfo) (fate : Nat → LinkFate) (i : Nat) :
    Option ValidationResult :=
  match batch[i]? with
  | some l =>
    match fate i with
    | .completed env => some (validateLinkM l env).1
    | _ => none
  | none => none

/-- One slot write of the `results` array (`results[index] = result`): a task
that completed writes its own index, a skipped task writes nothing. -/
def slotWrite (outcome : Nat → Option ValidationResult)
    (slots : Nat → Option ValidationResult) (i : Nat) : Nat → Option ValidationResult :=
  match outcome i with
  | some r => Function.update slots i (some r)
  | none => slots

/-- The `results` array of a chunk after all tasks ran, the writes happening
in the completion order `order` (`new Array(batch.length)` starts with every
slot undefined). -/
def batchSlots (outcome : Nat → Option ValidationResult) (order : List Nat) :
    Nat → Option ValidationResult :=
  order.foldl (slotWrite outcome) (fun _ => none)

/-- `processBatch(batch, ...)`: run all tasks (writes landing in completion
order `order`), then `results.filter(r => r !== undefined)` — the surviving
outcomes read off in slot order. -/
def processBatchExec (batch : List LinkInfo) (fate : Nat → LinkFate) (order : List Nat) :
    List ValidationResult :=
  (List.range batch.length).filterMap (batchSlots (outcomeAt batch fate) order)

/-- The links of a chunk on which `validateLink` is actually invoked: exactly
those whose task passed both abort checks. -/
def batchValidated (batch : List LinkInfo) (fate : Nat → LinkFate) : List LinkInfo :=
  (List.range batch.length).filterMap fun i =>
    match fate i with
    | .completed _ => batch[i]?
    | _ => none

/-- The chunking loop of `processLinks`
(`for (let i = 0; i < links.length; i += batchSize) batches.push(links.slice(i, i + batchSize))`),
via structural fuel (one unit per chunk; `links.length` units suffice for
`bs > 0`). -/
def chunkListGo (bs : Nat) : Nat → List α → List (List α)
  | 0, _ => []
  | _ + 1, [] => []
  | fuel + 1, x :: xs => (x :: xs).take bs :: chunkListGo bs fuel ((x :: xs).drop bs)

/-- The chunk list of `links` for batch size `bs`.  With `bs = 0` the source
loop does not terminate; that degenerate case is outside the modelled domain
and mapped to the empty chunk list. -/
def chunkList (bs : Nat) (l : List α) : List (List α) :=
  if bs = 0 then [] else chunkListGo bs l.length l

/-- Oracle fixing one run's nondeterminism: `fate i` is the fate of the link
at position `i` of the list handed to `processLinks`; `orders b` is the
completion order of chunk `b`'s tasks (local slot indices); `abortedAt b` is
the value of `abortController.signal.aborted` at the check guarding chunk `b`. -/
structure RunOracle where
  fate : Nat → LinkFate
  orders : Nat → List Nat
  abortedAt : Nat → Bool

/-- Result of `processLinks`: the returned outcome list, the session object
after its in-place mutations, the sequence of `saveSession` writes performed,
and the links on which `validateLink` was invoked. -/
structure PLOut where
  results : List ValidationResult
  sess : Session
  writes : List Session
  validated : List LinkInfo
deriving Repr

/-- The chunk loop of `processLinks`.  `startIndex` is
`currentSession.completedCount` captured at entry; chunk `b` spans global
link positions `bs*b, bs*b+1, …`.  After each chunk the session is mutated —
`results := results.slice(0, startIndex) ++ accumulated`,
`completedCount := startIndex + accumulated.length` — and persisted.
A batch-boundary abort breaks out of the loop (no throw). -/
def plGo (bs : Nat) (ora : RunOracle) (startIndex : Nat) :
    Nat → List (List LinkInfo) → List ValidationResult → Session → PLOut
  | _, [], acc, sess => ⟨acc, sess, [], []⟩
  | b, batch :: rest, acc, sess =>
    if ora.abortedAt b then ⟨acc, sess, [], []⟩
    else
      let bfate : Nat → LinkFate := fun j => ora.fate (bs * b + j)
      let br := processBatchExec batch bfate (ora.orders b)
      let acc2 := acc ++ br
      let sess2 := { sess with
        results := sess.results.take startIndex ++ acc2,
        completedCount := startIndex + acc2.length }
      let tail := plGo bs ora startIndex (b + 1) rest acc2 sess2
      ⟨tail.results, tail.sess, sess2 :: tail.writes, batchValidated batch bfate ++ tail.validated⟩

/-- `processLinks(links)` against the current session `sess`. -/
def processLinks (bs : Nat) (ora : RunOracle) (links : List LinkInfo) (sess : Session) : PLOut :=
  plGo bs ora sess.completedCount 0 (chunkList bs links) [] sess

/-- Result of `start`/`resume`: returned outcomes, the finally-persisted
session, the full `saveSession` write log of the run, and the links on which
`validateLink` was invoked. -/
structure RunOut where
  results : List ValidationResult
  finalSess : Session
  writes : List Session
  validated : List LinkInfo
deriving Repr

/-- `start(pageUrl, links)`: create and persist a fresh `checking` session,
run `processLinks` over all links, then set status `completed` with a
completion timestamp and persist.  `processLinks` never throws, so this is
the only exit path of the model (the `catch` branch that would mark the
session `cancelled` is unreachable without a persistence failure). -/
def startRun (bs : Nat) (ora : RunOracle) (sid pageUrl : String)
    (links : List LinkInfo) (t0 tF : String) : RunOut :=
  let sess0 := createSession sid pageUrl links t0
  let pl := processLinks bs ora links sess0
  let sessF := { pl.sess with status := .completed, completedAt := some tF }
  ⟨pl.results, sessF, sess0 :: (pl.writes ++ [sessF]), pl.validated⟩

/-- `resume()` on a stored session.  Returns `none` when the stored session's
status is not `checking` (the source also returns `null` when no session is
stored; an absent session is simply not a `resumeRun` argument).  Note the
aliasing in the source: `session` and `this.currentSession` are the same
object, so after `processLinks` the expression `[...session.results,
...newResults]` reads the already-updated results — the model's
`pl.sess.results ++ pl.results`. -/
def resumeRun (bs : Nat) (ora : RunOracle) (stored : Session) (tF : String) : Option RunOut :=
  if stored.status ≠ .checking then none
  else
    let remaining := stored.links.drop stored.completedCount
    let pl := processLinks bs ora remaining stored
    let allResults := pl.sess.results ++ pl.results
    let sessF := { pl.sess with
      status := .completed, results := allResults, completedAt := some tF }
    some ⟨allResults, sessF, pl.writes ++ [sessF], pl.validated⟩

/-! ## Concrete scenarios used by the claim theorems -/

/-- A benign validation environment: not cancelled, HEAD answers 200. -/
def demoEnv : ValidateEnv :=
  { abortedAtStart := false, abortedAtEnd := false,
    headResult := .ok 200, getResult := .ok 200, now := "2026-01-01T00:00:00.000Z" }

/-- A link descriptor with the given URL. -/
def demoLink (u : String) : LinkInfo :=
  { url := u, tagName := "A", text := none, elementId := u }

/-- The outcome `validateLink` produces for `demoLink u` under `demoEnv`. -/
def demoOutcome (u : String) : ValidationResult := (validateLinkM (demoLink u) demoEnv).1

/-- Claim C1 scenario: 25 links, batch size 20. -/
def linksC1 : List LinkInfo := List.replicate 25 (demoLink "https://example.com/page")

/-- Claim C1 oracle: every dispatched link completes normally with a 200; the
shared cancellation signal fires after chunk 1 finishes, so the abort check
before chunk 0 sees `false` and every later batch-boundary check sees `true`. -/
def oracleC1 : RunOracle :=
  { fate := fun _ => .completed demoEnv, orders := fun _ => List.range 20,
    abortedAt := fun b => b != 0 }

/-- Claim C1 run: `start` over 25 links, cancelled after the first chunk. -/
def runC1 : RunOut := startRun 20 oracleC1 "session-1" "https://example.com" linksC1 "t0" "t1"

/-- Claims C3/C4/C8 use resume scenarios over a stored mid-run session with
`completedCount = 1`; this builds one from the given link URLs. -/
def storedMidSession (sid : String) (urls : List String) : Session :=
  { id := sid, pageUrl := "https://example.com",
    links := urls.map demoLink,
    results := (urls.take 1).map demoOutcome, status := .checking,
    completedCount := 1, startedAt := "t0", completedAt := none }

/-- Claim C3 stored session: 2 links, first already completed and persisted. -/
def storedC3 : Session := storedMidSession "session-3" ["https://a.example/", "https://b.example/"]

/-- Claim C3 oracle: the single remaining link completes normally. -/
def oracleC3 : RunOracle :=
  { fate := fun _ => .completed demoEnv, orders := fun _ => [0], abortedAt := fun _ => false }

/-- Claim C4 stored session: 3 links, first already completed and persisted. -/
def storedC4 : Session :=
  storedMidSession "session-4" ["https://a4.example/", "https://b4.example/", "https://c4.example/"]

/-- Claim C4 oracle: both remaining links complete normally; their concurrent
tasks happen to finish in reverse order (slot 1 before slot 0). -/
def oracleC4 : RunOracle :=
  { fate := fun _ => .completed demoEnv, orders := fun _ => [1, 0], abortedAt := fun _ => false }

/-- Claim C8 stored session: 3 links, first already completed and persisted. -/
def storedC8 : Session :=
  storedMidSession "session-8" ["https://x8.example/", "https://y8.example/", "https://z8.example/"]

/-- Claim C8 oracle: same shape as C4's (reverse completion order). -/
def oracleC8 : RunOracle :=
  { fate := fun _ => .completed demoEnv, orders := fun _ => [1, 0], abortedAt := fun _ => false }

/-- Claim C5 counterexample data: a transport failure with a non-empty,
non-timeout message, observed while the external signal has fired. -/
def cexErrC5 : JsError := { name := "TypeError", message := "connection reset" }

/-- Claim C5 counterexample environment: both attempts reject with
`cexErrC5`; the external cancellation signal has fired by the time the error
branch runs. -/
def cexEnvC5 : ValidateEnv :=
  { abortedAtStart := false, abortedAtEnd := true,
    headResult := .err cexErrC5, getResult := .err cexErrC5, now := "t" }

/-- A fixed link for the validator theorems' concrete instances. -/
def demoLinkV : LinkInfo := demoLink "https://v.example/"

/-- Claim C5 witness data: a timeout-style failure (AbortError) with the
external signal not fired. -/
def wErrC5 : JsError := { name := "AbortError", message := "signal is aborted" }

/-- Claim C5 witness environment. -/
def wEnvC5 : ValidateEnv :=
  { abortedAtStart := false, abortedAtEnd := false,
    headResult := .err wErrC5, getResult := .err wErrC5, now := "t" }

/-- Claim C6 witness environment: HEAD answers 405, the GET retry answers 200. -/
def wEnvC6 : ValidateEnv :=
  { abortedAtStart := false, abortedAtEnd := false,
    headResult := .ok 405, getResult := .ok 200, now := "t" }

/-! ## Supporting lemmas -/

theorem chunkList_nil (bs : Nat) : chunkList bs ([] : List α) = [] := by
  unfold chunkList
  split <;> rfl

theorem batchSlots_foldl_apply (outcome : Nat → Option ValidationResult) (order : List Nat)
    (slots : Nat → Option ValidationResult) (j : Nat) :
    order.foldl (slotWrite outcome) slots j =
      if j ∈ order ∧ (outcome j).isSome then outcome j else slots j := by
  induction order generalizing slots with
  | nil => simp
  | cons i rest ih =>
    rw [List.foldl_cons, ih]
    by_cases hr : j ∈ rest ∧ (outcome j).isSome
    · simp [hr.1, hr.2]
    · have hmem : (j ∈ i :: rest ∧ (outcome j).isSome) ↔ (j = i ∧ (outcome j).isSome) := by
        constructor
        · rintro ⟨hm, hs⟩
          rcases List.mem_cons.mp hm with h | h
          · exact ⟨h, hs⟩
          · exact absurd ⟨h, hs⟩ hr
        · rintro ⟨he, hs⟩
          exact ⟨List.mem_cons.mpr (Or.inl he), hs⟩
      rw [if_neg hr]
      by_cases hij : j = i
      · subst hij
        cases ho : outcome j with
        | none => simp [slotWrite, ho, hmem]
        | some r => simp [slotWrite, ho, hmem, Function.update_apply]
      · cases ho : outcome i with
        | none => simp [slotWrite, ho, hij, hr, Function.update_apply]
        | some r => simp [slotWrite, ho, hij, hr, Function.update_apply]

/-- Supporting result: the outcome list of a chunk does not depend on the
completion order of its concurrent tasks, as long as every completed task got
to write its slot; it always equals the slot-order (= input-order) list.
This is the mechanism behind the ordering claim about `processBatch`. -/
theorem processBatchExec_order_irrelevant (batch : List LinkInfo) (fate : Nat → LinkFate)
    (order : List Nat) (hcov : ∀ i, (outcomeAt batch fate i).isSome → i ∈ order) :
    processBatchExec batch fate order =
      (List.range batch.length).filterMap (outcomeAt batch fate) := by
  unfold processBatchExec
  apply List.filterMap_congr
  intro j _
  unfold batchSlots
  rw [batchSlots_foldl_apply]
  by_cases hs : (outcomeAt batch fate j).isSome
  · simp [hs, hcov j hs]
  · cases ho : outcomeAt batch fate j with
    | none => simp [ho]
    | some r => rw [ho] at hs; simp at hs

theorem semRun_holders_add_permits (n : Nat) : ∀ (events : List SemEvent) (s : SemState),
    semValidFrom s events = true → s.holders + s.permits = n →
    (semRunFrom s events).holders + (semRunFrom s events).permits = n := by
  intro events
  induction events with
  | nil => intro s _ h; exact h
  | cons e es ih =>
    intro s hv hi
    have hv' : semValidFrom s (e :: es) = true := hv
    unfold semValidFrom at hv'
    rw [Bool.and_eq_true] at hv'
    obtain ⟨hv1, hv2⟩ := hv'
    show (semRunFrom (semStep s e).1 es).holders + (semRunFrom (semStep s e).1 es).permits = n
    refine ih _ hv2 ?_
    cases e with
    | acquire c =>
      by_cases hp : 0 < s.permits
      · simp only [semStep, if_pos hp]
        show s.holders + 1 + (s.permits - 1) = n
        omega
      · simp only [semStep, if_neg hp]
        exact hi
    | release =>
      have hh : 0 < s.holders := by simpa using hv1
      cases hw : s.waiting with
      | nil =>
        simp only [semStep, hw]
        show s.holders - 1 + (s.permits + 1) = n
        omega
      | cons w ws =>
        simp only [semStep, hw]
        exact hi

/-! ## Claim theorems -/

/-- Claim C7: for a semaphore with N permits — `acquire` consumes a free
permit immediately when one exists (conjunct 1) and otherwise suspends the
caller at the tail of the FIFO queue (conjunct 2); `release` hands the permit
directly to the longest-waiting caller, the queue head, leaving the free
count untouched (conjunct 3), or returns it to the free pool when nobody
waits (conjunct 4); and along any well-formed event sequence the number of
outstanding permits never exceeds N (conjunct 5). -/
theorem semaphore_fifo_and_bound (n : Nat) :
    (∀ (s : SemState) (c : Nat), 0 < s.permits →
        semStep s (.acquire c) = (⟨s.permits - 1, s.waiting, s.holders + 1⟩, some c)) ∧
    (∀ (s : SemState) (c : Nat), s.permits = 0 →
        semStep s (.acquire c) = (⟨s.permits, s.waiting ++ [c], s.holders⟩, none)) ∧
    (∀ (s : SemState) (w : Nat) (ws : List Nat), s.waiting = w :: ws →
        semStep s .release = (⟨s.permits, ws, s.holders⟩, some w)) ∧
    (∀ s : SemState, s.waiting = [] →
        semStep s .release = (⟨s.permits + 1, [], s.holders - 1⟩, none)) ∧
    (∀ events : List SemEvent, semValidFrom (semInit n) events = true →
        (semRunFrom (semInit n) events).holders ≤ n) := by
  refine ⟨?_, ?_, ?_, ?_, ?_⟩
  · intro s c hp
    simp only [semStep, if_pos hp]
  · intro s c hp
    have h : ¬ 0 < s.permits := by omega
    simp only [semStep, if_neg h]
  · intro s w ws hw
    simp only [semStep, hw]
  · intro s hw
    simp only [semStep, hw]
  · intro events hv
    have h := semRun_holders_add_permits n events (semInit n) hv (by simp [semInit])
    omega

/-- Witness for claim C7: each conjunct of `semaphore_fifo_and_bound`
exercised at a concrete state, and the outstanding bound evaluated on a
concrete well-formed event sequence (two acquires against one permit, then
two releases: the first release hands the permit to the waiter). -/
theorem semaphore_fifo_and_bound_witness :
    semStep ⟨1, [], 0⟩ (.acquire 7) = (⟨0, [], 1⟩, some 7) ∧
    semStep ⟨0, [], 1⟩ (.acquire 8) = (⟨0, [8], 1⟩, none) ∧
    semStep ⟨0, [8], 1⟩ .release = (⟨0, [], 1⟩, some 8) ∧
    semStep ⟨1, [], 1⟩ .release = (⟨2, [], 0⟩, none) ∧
    (semRunFrom (semInit 1) [.acquire 0, .acquire 1, .release, .release]).holders ≤ 1 :=
  ⟨(semaphore_fifo_and_bound 1).1 ⟨1, [], 0⟩ 7 (by decide),
   (semaphore_fifo_and_bound 1).2.1 ⟨0, [], 1⟩ 8 rfl,
   (semaphore_fifo_and_bound 1).2.2.1 ⟨0, [8], 1⟩ 8 [] rfl,
   (semaphore_fifo_and_bound 1).2.2.2.1 ⟨1, [], 1⟩ rfl,
   (semaphore_fifo_and_bound 1).2.2.2.2 [.acquire 0, .acquire 1, .release, .release] (by decide)⟩

/-- Claim C2: `classifyStatus` returns `success` iff 200 ≤ c < 300,
`redirect` iff 300 ≤ c < 400, `client_error` iff 400 ≤ c < 500,
`server_error` iff c ≥ 500, `network_error` for every c < 200 and for an
absent (null) status. -/
theorem classifyStatus_ranges :
    classifyStatus none = .network_error ∧
    ∀ c : Int,
      (classifyStatus (some c) = .success ↔ 200 ≤ c ∧ c < 300) ∧
      (classifyStatus (some c) = .redirect ↔ 300 ≤ c ∧ c < 400) ∧
      (classifyStatus (some c) = .client_error ↔ 400 ≤ c ∧ c < 500) ∧
      (classifyStatus (some c) = .server_error ↔ 500 ≤ c) ∧
      (c < 200 → classifyStatus (some c) = .network_error) := by
  refine ⟨rfl, fun c => ?_⟩
  simp only [classifyStatus]
  split_ifs with h1 h2 h3 h4 <;>
    refine ⟨?_, ?_, ?_, ?_, ?_⟩ <;> simp_all <;> omega

theorem doubleQuotesList_eq_flatMap (l : List Char) :
    doubleQuotesList l = l.flatMap fun c => if c = '"' then ['"', '"'] else [c] := by
  induction l with
  | nil => rfl
  | cons c cs ih => by_cases h : c = '"' <;> simp [doubleQuotesList, h, ih]

/-- Claim C9: `escapeCSVValue` emits a `null` cell as the empty string, wraps
a string containing a comma, double quote, carriage return or line feed in
double quotes with every embedded double quote doubled, and emits every other
string unchanged — stated as a refinement of `csvCellSpec`, the claim's words
as a function. -/
theorem escapeCSVValue_matches_spec (v : Option String) : escapeCSVValue v = csvCellSpec v := by
  cases v with
  | none => rfl
  | some s =>
    have hb : (s.data.contains ',' || s.data.contains '"' ||
        s.data.contains '\n' || s.data.contains '\r') = true
        ↔ (',' ∈ s.data ∨ '"' ∈ s.data ∨ '\r' ∈ s.data ∨ '\n' ∈ s.data) := by
      simp
      tauto
    simp only [escapeCSVValue, csvCellSpec]
    by_cases h : ',' ∈ s.data ∨ '"' ∈ s.data ∨ '\r' ∈ s.data ∨ '\n' ∈ s.data
    · rw [if_pos (hb.mpr h), if_pos h]
      apply String.ext
      simp [String.data_append, doubleQuotesList_eq_flatMap]
    · rw [if_neg fun hc => h (hb.mp hc), if_neg h]

/-- Claim C5 (amended): when both attempts of `validateLink` fail, the
outcome's category is `timeout` exactly when the final failure signals
abort/timeout (by name or message) and the external signal has not fired,
and `network_error` otherwise; the text is `"Cancelled"` when the external
signal has fired, else the failure's message, falling back to the generic
description when the message is empty.  Every failure path yields an outcome
with no status code (the model is total: no failure escapes). -/
theorem validateLink_failure_paths (l : LinkInfo) (env : ValidateEnv) (e1 e2 : JsError)
    (h0 : env.abortedAtStart = false) (h1 : env.headResult = .err e1)
    (h2 : env.getResult = .err e2) :
    ((validateLinkM l env).1.statusCategory = .timeout ↔
        (isTimeoutError e2 = true ∧ env.abortedAtEnd = false)) ∧
    ((validateLinkM l env).1.statusCategory = .timeout ∨
        (validateLinkM l env).1.statusCategory = .network_error) ∧
    (env.abortedAtEnd = true → (validateLinkM l env).1.statusText = "Cancelled") ∧
    (env.abortedAtEnd = false → isTimeoutError e2 = true →
        (validateLinkM l env).1.statusText = "Request Timeout") ∧
    (env.abortedAtEnd = false → isTimeoutError e2 = false →
        (validateLinkM l env).1.statusText =
          (if e2.message = "" then "Network Error" else e2.message)) ∧
    (validateLinkM l env).1.status = none := by
  have hv : validateLinkM l env = (errorResult l env.now e2 env.abortedAtEnd, ["HEAD", "GET"]) := by
    simp [validateLinkM, h0, h1, h2]
  rw [hv]
  cases hA : env.abortedAtEnd <;> cases hT : isTimeoutError e2 <;>
    simp [errorResult, baseResult, getStatusText, hA, hT]

/-- Counterexample for claim C5 as stated: with the external signal fired and
a non-empty, non-timeout failure message, the outcome's text is
`"Cancelled"`, not the failure's message as the claim asserts. -/
theorem validateLink_cancelled_text_cex :
    (validateLinkM demoLinkV cexEnvC5).1.statusCategory = .network_error ∧
    cexEnvC5.abortedAtEnd = true ∧
    cexErrC5.message = "connection reset" ∧
    (validateLinkM demoLinkV cexEnvC5).1.statusText = "Cancelled" ∧
    (validateLinkM demoLinkV cexEnvC5).1.statusText ≠ cexErrC5.message := by
  decide

/-- Witness for claim C5: `validateLink_failure_paths` applied to a concrete
double failure whose final error is an `AbortError` with the external signal
not fired, giving category `timeout`. -/
theorem validateLink_failure_paths_witness :
    (validateLinkM demoLinkV wEnvC5).1.statusCategory = .timeout :=
  (validateLink_failure_paths demoLinkV wEnvC5 wErrC5 wErrC5 rfl rfl rfl).1.mpr (by decide)

/-- Claim C6: when the HEAD probe yields a response with status 405 or 400,
`validateLink` issues the GET retry (the dispatched methods are
`["HEAD", "GET"]`) and, when that retry yields a response, the outcome is
classified from the retry's status; in particular a 200 retry response gives
category `success`. -/
theorem validateLink_head_fallback (l : LinkInfo) (env : ValidateEnv) (s s2 : Int)
    (h0 : env.abortedAtStart = false) (hH : env.headResult = .ok s)
    (hs : s = 405 ∨ s = 400) (hG : env.getResult = .ok s2) :
    (validateLinkM l env).2 = ["HEAD", "GET"] ∧
    (validateLinkM l env).1 = classifiedResult l env.now s2 ∧
    (validateLinkM l env).1.status = some s2 ∧
    (validateLinkM l env).1.statusCategory = classifyStatus (some s2) ∧
    (s2 = 200 → (validateLinkM l env).1.statusCategory = .success) := by
  have hf : shouldFallbackToGet s = true := by
    rcases hs with h | h <;> simp [shouldFallbackToGet, h]
  have hv : validateLinkM l env = (classifiedResult l env.now s2, ["HEAD", "GET"]) := by
    simp [validateLinkM, h0, hH, hG, hf]
  rw [hv]
  refine ⟨rfl, rfl, rfl, rfl, fun h200 => ?_⟩
  subst h200
  rfl

/-- Witness for claim C6: `validateLink_head_fallback` applied to a concrete
HEAD 405 / GET 200 interaction: both methods dispatched, outcome `success`. -/
theorem validateLink_head_fallback_witness :
    (validateLinkM demoLinkV wEnvC6).2 = ["HEAD", "GET"] ∧
    (validateLinkM demoLinkV wEnvC6).1.statusCategory = .success :=
  ⟨(validateLink_head_fallback demoLinkV wEnvC6 405 200 rfl rfl (Or.inl rfl) rfl).1,
   (validateLink_head_fallback demoLinkV wEnvC6 405 200 rfl rfl (Or.inl rfl) rfl).2.2.2.2 rfl⟩

/-- Claim C1 (divergence witness): in the claim's own scenario — 25 links,
batch size 20, cancellation firing after chunk 1 completes — the final
persisted session does have `results.length = 20`, but its status is
`completed` (with a completion timestamp), not `cancelled`: `processLinks`
breaks out of the chunk loop on abort without throwing, so `start` falls
through to the normal-completion finalization and the `catch` branch that
would set `cancelled` never runs. -/
theorem cancelled_run_marked_completed :
    runC1.finalSess.status = .completed ∧
    runC1.finalSess.status ≠ .cancelled ∧
    runC1.finalSess.results.length = 20 ∧
    runC1.finalSess.completedCount = 20 ∧
    runC1.finalSess.completedAt = some "t1" := by
  decide

/-- Claim C3 (divergence witness): resuming a stored `checking` session with
1 of 2 links completed (which satisfies `completedCount = results.length`),
the per-chunk persisted write keeps the invariant (`(2, 2)`), but the final
persisted write of `resume` has `completedCount = 2` and `results.length = 3`:
`[...session.results, ...newResults]` re-appends the new outcome because
`session` aliases the object `processLinks` already updated. -/
theorem resume_final_write_breaks_invariant :
    ((resumeRun 20 oracleC3 storedC3 "t1").map fun out =>
        (out.finalSess.completedCount, out.finalSess.results.length,
         out.writes.map fun w => (w.completedCount, w.results.length))) =
      some (2, 3, [(2, 2), (2, 3)]) := by
  decide

/-- Claim C4 (divergence witness): resuming a stored `checking` session with
1 of 3 links completed, only the two remaining links are validated (no
re-validation of the persisted one), but the final results list is the
previously persisted outcome followed by the two new outcomes **twice**, not
the claimed `stored ++ new`. -/
theorem resume_duplicates_new_outcomes :
    ((resumeRun 20 oracleC4 storedC4 "t1").map fun out =>
        (out.finalSess.results, out.validated)) =
      some ([demoOutcome "https://a4.example/",
             demoOutcome "https://b4.example/", demoOutcome "https://c4.example/",
             demoOutcome "https://b4.example/", demoOutcome "https://c4.example/"],
            [demoLink "https://b4.example/", demoLink "https://c4.example/"]) ∧
    ((resumeRun 20 oracleC4 storedC4 "t1").map fun out => out.finalSess.results) ≠
      some [demoOutcome "https://a4.example/",
            demoOutcome "https://b4.example/", demoOutcome "https://c4.example/"] := by
  decide

/-- Claim C8 (divergence witness): within a chunk the slot-indexing mechanism
does preserve input order (the two remaining links complete in reverse order
yet land as `[y, z]`; see also `processBatchExec_order_irrelevant`), but the
final persisted results list of a resumed run is **not** in input order: the
outcome of the position-2 link (`z8`) sits at index 2 while an occurrence of
the position-1 link's outcome (`y8`) follows it at index 3, because the final
write appends the new outcomes a second time. -/
theorem resume_breaks_result_order :
    ((resumeRun 20 oracleC8 storedC8 "t1").map fun out =>
        (out.finalSess.results[2]?, out.finalSess.results[3]?)) =
      some (some (demoOutcome "https://z8.example/"),
            some (demoOutcome "https://y8.example/")) ∧
    demoOutcome "https://y8.example/" ≠ demoOutcome "https://z8.example/" := by
  decide

/-- Claim C10: `start(pageUrl, [])` completes without error, validates no
link (hence dispatches no probes), returns an empty outcome list, and its
final persisted session has status `completed`, empty results,
`completedCount = 0` and a non-null completion timestamp; the write log is
exactly the fresh session followed by the finalized one. -/
theorem start_empty_links (bs : Nat) (ora : RunOracle) (sid pageUrl t0 tF : String) :
    (startRun bs ora sid pageUrl [] t0 tF).results = [] ∧
    (startRun bs ora sid pageUrl [] t0 tF).validated = [] ∧
    (startRun bs ora sid pageUrl [] t0 tF).finalSess.status = .completed ∧
    (startRun bs ora sid pageUrl [] t0 tF).finalSess.results = [] ∧
    (startRun bs ora sid pageUrl [] t0 tF).finalSess.completedCount = 0 ∧
    (startRun bs ora sid pageUrl [] t0 tF).finalSess.completedAt = some tF ∧
    (startRun bs ora sid pageUrl [] t0 tF).writes =
      [createSession sid pageUrl [] t0, (startRun bs ora sid pageUrl [] t0 tF).finalSess] := by
  simp [startRun, processLinks, chunkList_nil, plGo, createSession]

/-- Witness for claim C2: `classifyStatus_ranges` applied at the concrete
codes 204 (success) and 150 (below 200, hence network_error). -/
theorem classifyStatus_ranges_witness :
    classifyStatus (some 204) = .success ∧ classifyStatus (some 150) = .network_error :=
  ⟨(classifyStatus_ranges.2 204).1.mpr (by decide),
   (classifyStatus_ranges.2 150).2.2.2.2 (by decide)⟩
